import Mathlib

/-!
Shallow embedding of the IoT 3D-printer client firmware
(`IoT/gcode_parser.py`, `IoT/printer_controller.py`, `IoT/statistics.py`,
`IoT/main.py`).

Python floats are modelled as exact rationals (`ℚ`); the square root used for
3D travel distance and the constant π are the only irrational quantities, so
the time contribution of each move is stored symbolically as the pair
(squared distance, feed rate) and summed into a real number by `totalTime`.
Python exceptions caught by the source's `try/except` blocks are modelled by
`Option` results of the fallible primitive (numeric string conversion); the
one exception that is *not* caught inside the parser — the
`ZeroDivisionError` of `distance / new_feedrate` when a positive-displacement
move carries a zero feed rate — is modelled by making `_parse_move` (and the
line/file loops above it) return `none`, exactly where `parse_file`'s outer
`try/except` would abort the parse.
-/

namespace GCode

/-- Value of a list of decimal digit characters, most significant first. -/
def digitsToNat (ds : List Char) : ℕ :=
  ds.foldl (fun a c => a * 10 + (c.toNat - 48)) 0

/-- Python `str.strip()`: drop whitespace from both ends. -/
def pyStrip (cs : List Char) : List Char :=
  ((cs.dropWhile Char.isWhitespace).reverse.dropWhile Char.isWhitespace).reverse

/-- Helper for `pySplitWs`: accumulates the current token (reversed). -/
def pySplitWsAux : List Char → List Char → List (List Char)
  | [], acc => if acc.isEmpty then [] else [acc.reverse]
  | c :: rest, acc =>
    if c.isWhitespace then
      if acc.isEmpty then pySplitWsAux rest [] else acc.reverse :: pySplitWsAux rest []
    else pySplitWsAux rest (c :: acc)

/-- Python `str.split()` with no argument: split on whitespace runs,
dropping empty tokens. -/
def pySplitWs (cs : List Char) : List (List Char) := pySplitWsAux cs []

/-- Exponent suffix of a Python float literal: empty, or `e`/`E`, an optional
sign and digits, with nothing after.  Returns the exponent value. -/
def pyExp : List Char → Option ℤ
  | [] => some 0
  | c :: r =>
    if c = 'e' ∨ c = 'E' then
      let sr : Bool × List Char :=
        match r with
        | '+' :: t => (false, t)
        | '-' :: t => (true, t)
        | t => (false, t)
      let ds := sr.2.takeWhile Char.isDigit
      let rest := sr.2.dropWhile Char.isDigit
      if ds.isEmpty || !rest.isEmpty then none
      else some (if sr.1 then -(digitsToNat ds : ℤ) else (digitsToNat ds : ℤ))
    else none

/-- Unsigned part of a Python float literal: digits with an optional decimal
point and an optional exponent. -/
def pyFloatCore (cs : List Char) : Option ℚ :=
  let ip := cs.takeWhile Char.isDigit
  let r1 := cs.dropWhile Char.isDigit
  match r1 with
  | '.' :: r2 =>
    let fp := r2.takeWhile Char.isDigit
    let r3 := r2.dropWhile Char.isDigit
    if ip.isEmpty && fp.isEmpty then none
    else
      match pyExp r3 with
      | none => none
      | some e =>
        some (((digitsToNat ip : ℚ) + (digitsToNat fp : ℚ) / (10 : ℚ) ^ fp.length)
          * (10 : ℚ) ^ e)
  | _ =>
    if ip.isEmpty then none
    else
      match pyExp r1 with
      | none => none
      | some e => some ((digitsToNat ip : ℚ) * (10 : ℚ) ^ e)

/-- Python's built-in `float(s)` on decimal literals: surrounding whitespace is
ignored, an optional sign precedes digits with optional fraction and exponent;
any other input raises `ValueError`, modelled as `none`.
(The special forms `inf`/`nan`/underscore separators never occur in G-code
numeric fields and are modelled as failures.) -/
def pyFloat (cs0 : List Char) : Option ℚ :=
  let cs := pyStrip cs0
  match cs with
  | '+' :: r => pyFloatCore r
  | '-' :: r => (pyFloatCore r).map (fun q => -q)
  | r => pyFloatCore r

/-- The parser's cursor `current_position` dictionary {X, Y, Z, E}. -/
structure Pos where
  x : ℚ
  y : ℚ
  z : ℚ
  e : ℚ
deriving DecidableEq, Repr

/-- `GCodeParser` state: accumulated totals and cursor.
`time_terms` records, for each move with positive displacement, the pair
(squared 3D distance, feed rate); the float `total_time` of the source is
recovered from it by `totalTime` below. -/
structure GState where
  total_extrusion : ℚ
  time_terms : List (ℚ × ℚ)
  current_position : Pos
  current_feedrate : ℚ
  layer_count : ℕ
deriving DecidableEq, Repr

/-- `GCodeParser.reset`. -/
def GState.reset : GState :=
  { total_extrusion := 0
    time_terms := []
    current_position := ⟨0, 0, 0, 0⟩
    current_feedrate := 1500
    layer_count := 0 }

/-- One iteration of the token loop in `GCodeParser._parse_move`: tokens
shorter than two characters are skipped, axis letters X/Y/Z/E update the
new position, F updates the new feed rate, and a failing `float()`
conversion (`try/except: continue`) leaves the accumulator unchanged. -/
def applyPart (acc : Pos × ℚ) (part : List Char) : Pos × ℚ :=
  if part.length < 2 then acc
  else
    let axis := (part.headD ' ').toUpper
    if axis = 'X' then
      match pyFloat part.tail with
      | some q => ({ acc.1 with x := q }, acc.2)
      | none => acc
    else if axis = 'Y' then
      match pyFloat part.tail with
      | some q => ({ acc.1 with y := q }, acc.2)
      | none => acc
    else if axis = 'Z' then
      match pyFloat part.tail with
      | some q => ({ acc.1 with z := q }, acc.2)
      | none => acc
    else if axis = 'E' then
      match pyFloat part.tail with
      | some q => ({ acc.1 with e := q }, acc.2)
      | none => acc
    else if axis = 'F' then
      match pyFloat part.tail with
      | some q => (acc.1, q)
      | none => acc
    else acc

/-- The `(new_position, new_feedrate)` computed by `_parse_move` from the
tokens after the command word (`parts[1:]`). -/
def moveResult (s : GState) (parts : List (List Char)) : Pos × ℚ :=
  parts.tail.foldl applyPart (s.current_position, s.current_feedrate)

/-- Squared 3D distance, the radicand of `_calculate_distance`. -/
def distSq (p q : Pos) : ℚ :=
  (q.x - p.x) * (q.x - p.x) + (q.y - p.y) * (q.y - p.y) + (q.z - p.z) * (q.z - p.z)

/-- `GCodeParser._parse_move`.  The source's guard `distance > 0` (on
`sqrt(distSq)`) is equivalent to `0 < distSq` because the radicand is a sum
of squares.  Inside that guard the source computes
`distance / new_feedrate`: with a zero feed rate this division raises
`ZeroDivisionError` *before any field of the parser is assigned* (the
`try/except` blocks wrap only the `float()` calls), modelled as `none`.
Otherwise the timed move is recorded symbolically in `time_terms`. -/
def parseMove (s : GState) (parts : List (List Char)) : Option GState :=
  let nw := moveResult s parts
  let sq := distSq s.current_position nw.1
  if 0 < sq ∧ nw.2 = 0 then none
  else
    let terms := if 0 < sq then s.time_terms ++ [(sq, nw.2)] else s.time_terms
    let delta := nw.1.e - s.current_position.e
    let ext := if 0 < delta then s.total_extrusion + delta else s.total_extrusion
    some
      { total_extrusion := ext
        time_terms := terms
        current_position := nw.1
        current_feedrate := nw.2
        layer_count := s.layer_count }

/-- Comment removal in `_parse_line`: if the line contains `;`, keep the part
before the first `;` and strip it; otherwise the line is left as is. -/
def stripComment (cs : List Char) : List Char :=
  if cs.contains ';' then pyStrip (cs.takeWhile (fun c => c != ';')) else cs

/-- Dispatch inside `_parse_line` once the line is known to start with
G or g: split into whitespace tokens, and when the command word is
`G0`/`G1` (case-insensitive) run `_parse_move` and increment the layer
counter whenever the line text contains a `Z` (case-insensitive).
A `ZeroDivisionError` raised by `_parse_move` propagates (`none`) and the
layer counter is not touched. -/
def gDispatch (s : GState) (cs : List Char) : Option GState :=
  let parts := pySplitWs cs
  if parts.isEmpty then some s
  else
    let command := (parts.headD []).map Char.toUpper
    if command = ['G', '0'] ∨ command = ['G', '1'] then
      match parseMove s parts with
      | none => none
      | some s1 =>
        if (cs.map Char.toUpper).contains 'Z' then
          some { s1 with layer_count := s1.layer_count + 1 }
        else some s1
    else some s

/-- `GCodeParser._parse_line`.  `none` is the uncaught `ZeroDivisionError`
escaping from `_parse_move` (caught only by `parse_file`'s outer
`try/except`, which aborts the whole parse). -/
def consumeLine (s : GState) (line : String) : Option GState :=
  let cs := stripComment line.toList
  if cs.isEmpty then some s
  else if cs.headD ' ' = 'G' ∨ cs.headD ' ' = 'g' then gDispatch s cs
  else some s

/-- The line loop of `GCodeParser.parse_file` restricted to the parsing
state (file I/O and progress printing elided): an exception on any line
aborts the remaining lines and makes `parse_file` return `None`. -/
def consumeLines : GState → List String → Option GState
  | s, [] => some s
  | s, l :: ls =>
    match consumeLine s l with
    | none => none
    | some s1 => consumeLines s1 ls

/-- The accumulated `total_time` (seconds) of the source, recovered from the
symbolic `time_terms`: each timed move contributes
`sqrt(squared distance) / feedrate * 60`.  A feed rate of 0 never occurs in
a recorded term — `parseMove` raises (`none`) instead of dividing by zero —
so on every state produced by a successful parse this real division is by a
nonzero feed rate (lemma `time_terms_feed_nonzero`). -/
noncomputable def totalTime (s : GState) : ℝ :=
  (s.time_terms.map (fun t => Real.sqrt (t.1 : ℝ) / (t.2 : ℝ) * 60)).sum

/-- The result dictionary of `GCodeParser.parse_file` when it succeeds. -/
structure ParseTotals where
  time_minutes : ℝ
  extrusion_mm : ℚ
  layers : ℕ

/-- The totals reported by `parse_file` from the final parsing state
(`time_minutes = total_time / 60`). -/
noncomputable def parseTotals (s : GState) : ParseTotals :=
  { time_minutes := totalTime s / 60
    extrusion_mm := s.total_extrusion
    layers := s.layer_count }

/-- `GCodeParser.calculate_material_weight`. -/
noncomputable def calculate_material_weight
    (extrusion_mm filament_diameter_mm density_g_cm3 : ℝ) : ℝ :=
  let radius_mm := filament_diameter_mm / 2
  let volume_mm3 := Real.pi * radius_mm ^ 2 * extrusion_mm
  let volume_cm3 := volume_mm3 / 1000
  volume_cm3 * density_g_cm3

end GCode

namespace Printer

/-- Python `int()` on a float: truncation toward zero. -/
def pyInt (q : ℚ) : ℤ := if 0 ≤ q then ⌊q⌋ else ⌈q⌉

/-- `PrinterController` state.  `print_start_time` is `None` until the first
`start_print` and is read only while `is_printing`; it is modelled as a
rational timestamp (0 at construction). -/
structure PState where
  is_printing : Bool
  current_job_id : Option ℕ
  print_start_time : ℚ
  estimated_duration : ℚ
  total_layers : ℕ
  current_layer : ℤ
  estimated_material : ℚ
  used_material : ℚ
  nozzle_temp : ℚ
  bed_temp : ℚ
  target_nozzle_temp : ℚ
  target_bed_temp : ℚ
deriving DecidableEq, Repr

/-- `PrinterController.__init__`. -/
def PState.init : PState :=
  { is_printing := false
    current_job_id := none
    print_start_time := 0
    estimated_duration := 0
    total_layers := 0
    current_layer := 0
    estimated_material := 0
    used_material := 0
    nozzle_temp := 0
    bed_temp := 0
    target_nozzle_temp := 0
    target_bed_temp := 0 }

/-- `PrinterController.SIMULATION_SPEED_MULTIPLIER`. -/
def SIMULATION_SPEED_MULTIPLIER : ℚ := 3

/-- `PrinterController.start_print` followed by the synchronous `_heat_up`
ramp (which ends with both temperatures at their targets); `now` is the
wall-clock value of `time.time()` at the call. -/
def start_print (s : PState) (job_id : ℕ) (estimated_time_minutes : ℚ)
    (estimated_material_grams : ℚ) (total_layers : ℕ) (now : ℚ) : PState :=
  { s with
    is_printing := true
    current_job_id := some job_id
    print_start_time := now
    estimated_duration := estimated_time_minutes * 60 / SIMULATION_SPEED_MULTIPLIER
    total_layers := total_layers
    current_layer := 0
    estimated_material := estimated_material_grams
    used_material := 0
    target_nozzle_temp := 210
    target_bed_temp := 60
    nozzle_temp := 210
    bed_temp := 60 }

/-- The dictionary returned by `PrinterController.get_status`.  The idle
branch returns a dictionary without the `nozzle_temp`, `bed_temp` and
`used_material` keys; those are therefore `Option`s, absent when idle. -/
structure PStatus where
  is_printing : Bool
  progress : ℚ
  elapsed_time : ℚ
  remaining_time : ℚ
  current_layer : ℤ
  total_layers : ℕ
  nozzle_temp : Option ℚ
  bed_temp : Option ℚ
  used_material : Option ℚ
deriving DecidableEq, Repr

/-- `PrinterController.get_status` at wall-clock time `now`: returns the
post-call controller state (the method assigns `self.current_layer` and
`self.used_material`) together with the status dictionary. -/
def get_status (s : PState) (now : ℚ) : PState × PStatus :=
  if s.is_printing then
    let elapsed_time := now - s.print_start_time
    let progress :=
      if 0 < s.estimated_duration then min (elapsed_time / s.estimated_duration * 100) 100
      else 0
    let remaining_time := max (s.estimated_duration - elapsed_time) 0
    let current_layer := pyInt (progress / 100 * (s.total_layers : ℚ))
    let used_material := progress / 100 * s.estimated_material
    ({ s with current_layer := current_layer, used_material := used_material },
     { is_printing := true
       progress := progress
       elapsed_time := elapsed_time
       remaining_time := remaining_time
       current_layer := current_layer
       total_layers := s.total_layers
       nozzle_temp := some s.nozzle_temp
       bed_temp := some s.bed_temp
       used_material := some used_material })
  else
    (s,
     { is_printing := false
       progress := 0
       elapsed_time := 0
       remaining_time := 0
       current_layer := 0
       total_layers := 0
       nozzle_temp := none
       bed_temp := none
       used_material := none })

/-- `PrinterController.is_complete` at wall-clock time `now`: returns the
post-call controller state (it calls `get_status`) and the boolean result. -/
def is_complete (s : PState) (now : ℚ) : PState × Bool :=
  if s.is_printing then
    let r := get_status s now
    (r.1, decide (100 ≤ r.2.progress))
  else (s, false)

end Printer

namespace Stats

/-- `Statistics` state (the construction timestamp `start_time` only feeds
the uptime report and is elided). -/
structure StState where
  total_jobs : ℕ
  successful_jobs : ℕ
  failed_jobs : ℕ
  total_print_time_seconds : ℚ
  total_material_grams : ℚ
  current_job_start_time : Option ℚ
  current_job_estimated_time : ℚ
  current_job_estimated_material : ℚ
deriving DecidableEq, Repr

/-- Python truthiness of an optional float: `None` and `0.0` are falsy. -/
def truthy (v : Option ℚ) : Bool :=
  match v with
  | none => false
  | some x => decide (x ≠ 0)

/-- `Statistics.start_job` at wall-clock time `now`. -/
def start_job (s : StState) (estimated_time_minutes estimated_material_grams now : ℚ) :
    StState :=
  { s with
    current_job_start_time := some now
    current_job_estimated_time := estimated_time_minutes * 60
    current_job_estimated_material := estimated_material_grams }

/-- `Statistics.finish_job` at wall-clock time `now`.  Both guards of the
source are truthiness tests (`if self.current_job_start_time:` and
`if actual_material_grams: ... elif self.current_job_estimated_material:`). -/
def finish_job (s : StState) (success : Bool) (actual_material_grams : Option ℚ)
    (now : ℚ) : StState :=
  let s1 := { s with total_jobs := s.total_jobs + 1 }
  let s2 :=
    if success then { s1 with successful_jobs := s1.successful_jobs + 1 }
    else { s1 with failed_jobs := s1.failed_jobs + 1 }
  let s3 :=
    if truthy s.current_job_start_time then
      { s2 with
        total_print_time_seconds :=
          s2.total_print_time_seconds + (now - (s.current_job_start_time.getD 0)) }
    else s2
  let s4 :=
    if truthy actual_material_grams then
      { s3 with
        total_material_grams := s3.total_material_grams + (actual_material_grams.getD 0) }
    else if s.current_job_estimated_material ≠ 0 then
      { s3 with
        total_material_grams := s3.total_material_grams + s.current_job_estimated_material }
    else s3
  { s4 with
    current_job_start_time := none
    current_job_estimated_time := 0
    current_job_estimated_material := 0 }

end Stats

namespace Orchestrator

/-- Python's `x or d` on an optional float field read with `dict.get`:
the default is used when the field is absent (`None`) or falsy (`0`). -/
def pyOr (v : Option ℚ) (d : ℚ) : ℚ :=
  match v with
  | none => d
  | some x => if x = 0 then d else x

/-- The fields of a queue job consumed by `_parse_and_estimate`
(`dict.get` yields `None` when a key is absent). -/
structure Job where
  estimatedPrintTimeMinutes : Option ℚ
  estimatedMaterialInGrams : Option ℚ
deriving DecidableEq, Repr

/-- The material descriptor fields consumed by `_parse_and_estimate`. -/
structure Material where
  diameterMm : Option ℚ
  densityInGramsPerCm3 : Option ℚ
deriving DecidableEq, Repr

/-- The estimate dictionary built by `_parse_and_estimate` (its fields are
real-valued because the parsed branch carries the π-scaled weight and the
square-root-valued time). -/
structure Estimate where
  time_minutes : ℝ
  material_grams : ℝ
  layers : ℕ

/-- `config.SKIP_GCODE_PARSING`. -/
def SKIP_GCODE_PARSING : Bool := false

/-- `IoTPrinterClient._parse_and_estimate`; `parse_result` is the outcome of
`GCodeParser.parse_file` (`none` models the parse-failure return `None`).
A falsy (`None`) result selects the server-estimate fallback dictionary;
otherwise the material weight is computed from the parsed extrusion with the
material descriptor's diameter and density (defaults 1.75 and 1.24). -/
noncomputable def parse_and_estimate (job : Job) (material : Material)
    (parse_result : Option GCode.ParseTotals) : Option Estimate :=
  if SKIP_GCODE_PARSING then
    let time_min := pyOr job.estimatedPrintTimeMinutes 0
    let material_g := pyOr job.estimatedMaterialInGrams 0
    some
      { time_minutes := ((if 0 < time_min then time_min else 30 : ℚ) : ℝ)
        material_grams := ((if 0 < material_g then material_g else 10 : ℚ) : ℝ)
        layers := 100 }
  else
    match parse_result with
    | none =>
      some
        { time_minutes := ((pyOr job.estimatedPrintTimeMinutes 30 : ℚ) : ℝ)
          material_grams := ((pyOr job.estimatedMaterialInGrams 10 : ℚ) : ℝ)
          layers := 100 }
    | some r =>
      let diameter_mm := pyOr material.diameterMm (175 / 100)
      let density_g_cm3 := pyOr material.densityInGramsPerCm3 (124 / 100)
      some
        { time_minutes := r.time_minutes
          material_grams :=
            GCode.calculate_material_weight (r.extrusion_mm : ℝ) (diameter_mm : ℝ)
              (density_g_cm3 : ℝ)
          layers := r.layers }

end Orchestrator

namespace GCode

/-- Observed E-axis delta of one consumed line: the cursor's `E` after the
line minus the cursor's `E` before it (zero for non-motion lines and for a
line that raises, both of which leave the cursor untouched). -/
def eDelta (s : GState) (l : String) : ℚ :=
  ((consumeLine s l).getD s).current_position.e - s.current_position.e

/-- Sum over a line sequence of the positive parts of the per-move E deltas,
threaded through the evolving parser state. -/
def sumPosDeltas : GState → List String → ℚ
  | _, [] => 0
  | s, l :: ls => max (eDelta s l) 0 + sumPosDeltas ((consumeLine s l).getD s) ls

/-- A token of a `G0`/`G1` line that actually affects `_parse_move`'s result:
at least two characters, a recognised axis letter, and a numeric tail that
`float()` accepts. -/
def partEffective (part : List Char) : Bool :=
  decide (¬ part.length < 2) &&
    (decide ((part.headD ' ').toUpper = 'X') || decide ((part.headD ' ').toUpper = 'Y') ||
      decide ((part.headD ' ').toUpper = 'Z') || decide ((part.headD ' ').toUpper = 'E') ||
      decide ((part.headD ' ').toUpper = 'F')) &&
    (pyFloat part.tail).isSome

/-- The two motion lines of end-to-end scenario A. -/
def scenarioA : List String := ["G1 X10 Y0 Z0 E5 F1200", "G1 X10 Y10 Z0 E5"]

/-- The state of a fresh estimator after the two lines of scenario A
(their consumption raises nothing, see `scenarioRun_eval`). -/
def scenarioRun : GState := (consumeLines GState.reset scenarioA).getD GState.reset

/-- A motion line whose positive per-move E delta is 5 but whose zero feed
rate makes `_parse_move` raise before the delta is accrued. -/
def zeroFeedLine : String := "G1 E5 F0 X1"

/-- A single successfully consumed extruding move. -/
def lsW : List String := ["G1 X10 E5 F1200"]

/-- A follow-up retraction move (E delta negative). -/
def moreW : List String := ["G1 E3"]

/-- The estimator state after `lsW`. -/
def stW1 : GState :=
  { total_extrusion := 5
    time_terms := [(100, 1200)]
    current_position := ⟨10, 0, 0, 5⟩
    current_feedrate := 1200
    layer_count := 0 }

/-- The estimator state after `lsW ++ moreW`: the retraction changed the
cursor's E but not `total_extrusion`. -/
def stW2 : GState :=
  { total_extrusion := 5
    time_terms := [(100, 1200)]
    current_position := ⟨10, 0, 0, 3⟩
    current_feedrate := 1200
    layer_count := 0 }

/-- The accumulator a token fold starts from (origin cursor, default feed). -/
def accW : Pos × ℚ := (⟨0, 0, 0, 0⟩, 1500)

/-- Tokens with one well-formed member, an unknown letter and a short token. -/
def partsW : List (List Char) := [['X', '1'], ['Q', '7'], ['Y']]

/-- The token list of a zero-feed positive-displacement move. -/
def partsZ : List (List Char) := [['G', '1'], ['X', '1'], ['F', '0']]

end GCode

namespace Printer

/-- A mid-print controller state: 100-second job, 7 layers, 50 g of
material, started at time 0. -/
def s₃ : PState :=
  { PState.init with
    is_printing := true
    print_start_time := 0
    estimated_duration := 100
    total_layers := 7
    estimated_material := 50 }

/-- A print started with estimated minutes 0 (hence zero duration). -/
def sZ : PState := start_print PState.init 1 0 5 10 0

/-- A printing state mid-job used to exhibit `get_status`'s self-mutation. -/
def sMut : PState :=
  { PState.init with
    is_printing := true
    print_start_time := 0
    estimated_duration := 100
    estimated_material := 10
    total_layers := 4 }

end Printer

namespace Stats

/-- A statistics state with a running job estimated at 7 g of material. -/
def stC7 : StState :=
  { total_jobs := 0
    successful_jobs := 0
    failed_jobs := 0
    total_print_time_seconds := 0
    total_material_grams := 0
    current_job_start_time := some 10
    current_job_estimated_time := 600
    current_job_estimated_material := 7 }

end Stats

namespace Orchestrator

/-- A queue job whose server estimate declares 25 minutes and 0 grams. -/
def jobW : Job := { estimatedPrintTimeMinutes := some 25, estimatedMaterialInGrams := some 0 }

/-- A material descriptor with both optional fields absent. -/
def matW : Material := { diameterMm := none, densityInGramsPerCm3 := none }

end Orchestrator

namespace GCode

theorem parseMove_eq_none_iff (s : GState) (parts : List (List Char)) :
    parseMove s parts = none ↔
      0 < distSq s.current_position (moveResult s parts).1 ∧
        (moveResult s parts).2 = 0 := by
  unfold parseMove
  dsimp only
  split_ifs with h
  · simp [h]
  · simp [h]

set_option linter.unnecessarySeqFocus false in
theorem parseMove_some (s : GState) (parts : List (List Char)) (s1 : GState)
    (h : parseMove s parts = some s1) :
    s1.total_extrusion =
      (if 0 < (moveResult s parts).1.e - s.current_position.e then
        s.total_extrusion + ((moveResult s parts).1.e - s.current_position.e)
      else s.total_extrusion) ∧
    s1.current_position = (moveResult s parts).1 := by
  unfold parseMove at h
  dsimp only at h
  split_ifs at h with hc <;>
    (injection h with h; subst h; exact ⟨by split_ifs <;> simp_all, rfl⟩)

theorem gDispatch_extrusion (s : GState) (cs : List Char) (s1 : GState)
    (h : gDispatch s cs = some s1) :
    s1.total_extrusion =
      s.total_extrusion + max (s1.current_position.e - s.current_position.e) 0 := by
  unfold gDispatch at h
  dsimp only at h
  split_ifs at h with h1 h2 h3
  · injection h with h
    subst h
    simp
  · cases hpm : parseMove s (pySplitWs cs) with
    | none => rw [hpm] at h; exact absurd h (by simp)
    | some sm =>
      rw [hpm] at h
      dsimp only at h
      injection h with h
      subst h
      obtain ⟨hte, hpos⟩ := parseMove_some _ _ _ hpm
      show sm.total_extrusion =
        s.total_extrusion + max (sm.current_position.e - s.current_position.e) 0
      rw [hte, hpos]
      split_ifs with hd
      · rw [max_eq_left hd.le]
      · rw [max_eq_right (le_of_not_lt hd)]
        ring
  · cases hpm : parseMove s (pySplitWs cs) with
    | none => rw [hpm] at h; exact absurd h (by simp)
    | some sm =>
      rw [hpm] at h
      dsimp only at h
      injection h with h
      subst h
      obtain ⟨hte, hpos⟩ := parseMove_some _ _ _ hpm
      rw [hte, hpos]
      split_ifs with hd
      · rw [max_eq_left hd.le]
      · rw [max_eq_right (le_of_not_lt hd)]
        ring
  · injection h with h
    subst h
    simp

theorem consumeLine_extrusion (s : GState) (l : String) (s1 : GState)
    (h : consumeLine s l = some s1) :
    s1.total_extrusion =
      s.total_extrusion + max (s1.current_position.e - s.current_position.e) 0 := by
  unfold consumeLine at h
  dsimp only at h
  split_ifs at h with h1 h2
  · injection h with h
    subst h
    simp
  · exact gDispatch_extrusion s _ s1 h
  · injection h with h
    subst h
    simp

theorem consumeLine_extrusion_mono (s : GState) (l : String) (s1 : GState)
    (h : consumeLine s l = some s1) : s.total_extrusion ≤ s1.total_extrusion := by
  rw [consumeLine_extrusion s l s1 h]
  have := le_max_right (s1.current_position.e - s.current_position.e) 0
  linarith

theorem consumeLines_extrusion (ls : List String) (s s1 : GState)
    (h : consumeLines s ls = some s1) :
    s1.total_extrusion = s.total_extrusion + sumPosDeltas s ls := by
  induction ls generalizing s with
  | nil =>
    simp only [consumeLines] at h
    injection h with h
    subst h
    simp [sumPosDeltas]
  | cons l ls ih =>
    simp only [consumeLines] at h
    cases hc : consumeLine s l with
    | none => rw [hc] at h; exact absurd h (by simp)
    | some sm =>
      rw [hc] at h
      dsimp only at h
      have hmain := ih sm h
      have h1 := consumeLine_extrusion s l sm hc
      have hed : eDelta s l = sm.current_position.e - s.current_position.e := by
        simp [eDelta, hc]
      rw [sumPosDeltas, hc]
      simp only [Option.getD_some]
      rw [hed, hmain, h1]
      ring

theorem consumeLines_extrusion_mono (ls : List String) (s s1 : GState)
    (h : consumeLines s ls = some s1) : s.total_extrusion ≤ s1.total_extrusion := by
  induction ls generalizing s with
  | nil =>
    simp only [consumeLines] at h
    injection h with h
    subst h
    exact le_refl _
  | cons l ls ih =>
    simp only [consumeLines] at h
    cases hc : consumeLine s l with
    | none => rw [hc] at h; exact absurd h (by simp)
    | some sm =>
      rw [hc] at h
      dsimp only at h
      exact le_trans (consumeLine_extrusion_mono s l sm hc) (ih sm h)

theorem consumeLines_append (ls more : List String) (s : GState) :
    consumeLines s (ls ++ more) =
      (consumeLines s ls).bind (fun t => consumeLines t more) := by
  induction ls generalizing s with
  | nil => simp [consumeLines]
  | cons l ls ih =>
    simp only [List.cons_append, consumeLines]
    cases hc : consumeLine s l with
    | none => simp
    | some sm => simp [ih sm]

/-- C2 (amended): for every line sequence the estimator consumes after a
reset without raising, `total_extrusion` equals the sum of the positive
per-move E deltas (new E minus previous E), and consuming further lines (in
particular retraction moves with negative delta) never decreases it; a line
on which `_parse_move` raises aborts consumption before accruing anything,
so the equality is stated for raise-free consumption. -/
theorem total_extrusion_spec (ls more : List String) (s1 s2 : GState)
    (h1 : consumeLines GState.reset ls = some s1)
    (h2 : consumeLines GState.reset (ls ++ more) = some s2) :
    s1.total_extrusion = sumPosDeltas GState.reset ls ∧
    s1.total_extrusion ≤ s2.total_extrusion := by
  constructor
  · rw [consumeLines_extrusion ls GState.reset s1 h1]
    simp [GState.reset]
  · rw [consumeLines_append ls more GState.reset, h1] at h2
    simp only [Option.some_bind] at h2
    exact consumeLines_extrusion_mono more s1 s2 h2

set_option maxHeartbeats 1000000 in
/-- C2: the claim's quantification over *every* sequence is false on the
code: on the single-line sequence below the parsed per-move E delta is the
positive value 5, but the source raises `ZeroDivisionError` at
`distance / new_feedrate` before the accrual at line 130 executes, so
consumption aborts (`none`) and no totals result (the parser state at the
raise still has `total_extrusion = 0`). -/
theorem total_extrusion_as_stated_false :
    consumeLines GState.reset [zeroFeedLine] = none ∧
    (moveResult GState.reset (pySplitWs (stripComment zeroFeedLine.toList))).1.e -
        GState.reset.current_position.e = 5 := by
  have hl : zeroFeedLine.toList =
      ['G', '1', ' ', 'E', '5', ' ', 'F', '0', ' ', 'X', '1'] := by rfl
  constructor
  · simp [consumeLines, consumeLine, zeroFeedLine, hl, stripComment, gDispatch,
      parseMove, pySplitWs, pySplitWsAux, moveResult, applyPart, pyFloat, pyFloatCore,
      pyExp, pyStrip, digitsToNat, distSq, GState.reset]
  · simp [zeroFeedLine, hl, stripComment, pySplitWs, pySplitWsAux, moveResult,
      applyPart, pyFloat, pyFloatCore, pyExp, pyStrip, digitsToNat, GState.reset]

set_option maxHeartbeats 1000000 in
theorem consumeLines_lsW_eval : consumeLines GState.reset lsW = some stW1 := by
  have hl : ("G1 X10 E5 F1200" : String).toList =
      ['G', '1', ' ', 'X', '1', '0', ' ', 'E', '5', ' ', 'F', '1', '2', '0', '0'] := by rfl
  simp [consumeLines, consumeLine, lsW, stW1, hl, stripComment, gDispatch, parseMove,
    pySplitWs, pySplitWsAux, moveResult, applyPart, pyFloat, pyFloatCore, pyExp,
    pyStrip, digitsToNat, distSq, GState.reset]
  norm_num

set_option maxHeartbeats 1000000 in
theorem consumeLines_lsW_moreW_eval :
    consumeLines GState.reset (lsW ++ moreW) = some stW2 := by
  have hl : ("G1 X10 E5 F1200" : String).toList =
      ['G', '1', ' ', 'X', '1', '0', ' ', 'E', '5', ' ', 'F', '1', '2', '0', '0'] := by rfl
  have hl2 : ("G1 E3" : String).toList = ['G', '1', ' ', 'E', '3'] := by rfl
  simp [consumeLines, consumeLine, lsW, moreW, stW2, hl, hl2, stripComment, gDispatch,
    parseMove, pySplitWs, pySplitWsAux, moveResult, applyPart, pyFloat, pyFloatCore,
    pyExp, pyStrip, digitsToNat, distSq, GState.reset]
  norm_num

theorem total_extrusion_spec_witness :
    stW1.total_extrusion = sumPosDeltas GState.reset lsW ∧
    stW1.total_extrusion ≤ stW2.total_extrusion :=
  total_extrusion_spec lsW moreW stW1 stW2 consumeLines_lsW_eval
    consumeLines_lsW_moreW_eval

theorem applyPart_skip (acc : Pos × ℚ) (part : List Char)
    (h : partEffective part = false) : applyPart acc part = acc := by
  by_cases hlen : part.length < 2
  · simp [applyPart, hlen]
  · cases hv : pyFloat part.tail with
    | none => simp [applyPart, hv]
    | some q =>
      have hlen' : decide (¬ part.length < 2) = true := by simp [hlen]
      simp only [partEffective, hv, Option.isSome_some, Bool.and_true, hlen',
        Bool.true_and, Bool.or_eq_false_iff, decide_eq_false_iff_not] at h
      obtain ⟨⟨⟨⟨hx, hy⟩, hz⟩, he2⟩, hf⟩ := h
      unfold applyPart
      rw [if_neg hlen]
      simp only [hv]
      rw [if_neg hx, if_neg hy, if_neg hz, if_neg he2, if_neg hf]

theorem applyPart_foldl_filter (acc : Pos × ℚ) (parts : List (List Char)) :
    parts.foldl applyPart acc = (parts.filter partEffective).foldl applyPart acc := by
  induction parts generalizing acc with
  | nil => rfl
  | cons p ps ih =>
    by_cases hp : partEffective p = true
    · simp only [List.filter_cons, hp, if_pos, List.foldl_cons]
      exact ih (applyPart acc p)
    · have hp' : partEffective p = false := by simpa using hp
      simp only [List.filter_cons, hp', Bool.false_eq_true, if_false, List.foldl_cons,
        applyPart_skip acc p hp']
      exact ih acc

/-- C9 (amended): malformed tokens never raise — the token loop behaves on
any token list exactly as on the sublist of well-formed tokens (short
tokens, unknown letters and unparsable numbers are skipped) — and line
consumption fails in exactly one way: the `ZeroDivisionError` of
`distance / new_feedrate`, raised precisely when the parsed move has
positive squared displacement and a zero effective feed rate; any failing
line fails through that move-level division. -/
theorem malformed_tokens_skipped (acc : Pos × ℚ) (parts : List (List Char))
    (s : GState) (parts2 : List (List Char)) (s2 : GState) (line : String) :
    parts.foldl applyPart acc = (parts.filter partEffective).foldl applyPart acc ∧
    (parseMove s parts2 = none ↔
      0 < distSq s.current_position (moveResult s parts2).1 ∧
        (moveResult s parts2).2 = 0) ∧
    (consumeLine s2 line = none →
      parseMove s2 (pySplitWs (stripComment line.toList)) = none) := by
  refine ⟨applyPart_foldl_filter acc parts, parseMove_eq_none_iff s parts2, ?_⟩
  intro h
  unfold consumeLine gDispatch at h
  dsimp only at h
  split_ifs at h with h1 h2 h3 h4 h5
  all_goals {
    cases hpm : parseMove s2 (pySplitWs (stripComment line.toList)) with
    | none => rfl
    | some sm =>
      rw [hpm] at h
      dsimp only at h
      exact absurd h (by simp)
  }

set_option maxHeartbeats 1000000 in
/-- C9: the claim that consuming a line never raises for every input string
is false on the code: the well-formed line `G1 X1 F0` moves the cursor by a
positive distance with feed rate 0, so `_parse_move` raises an uncaught
`ZeroDivisionError` at `distance / new_feedrate` (only the `float()` calls
are inside `try/except`). -/
theorem consume_raises_on_zero_feed :
    consumeLine GState.reset "G1 X1 F0" = none := by
  have hl : ("G1 X1 F0" : String).toList =
      ['G', '1', ' ', 'X', '1', ' ', 'F', '0'] := by rfl
  simp [consumeLine, hl, stripComment, gDispatch, parseMove, pySplitWs, pySplitWsAux,
    moveResult, applyPart, pyFloat, pyFloatCore, pyExp, pyStrip, digitsToNat, distSq,
    GState.reset]

theorem malformed_tokens_skipped_witness :
    partsW.foldl applyPart accW = (partsW.filter partEffective).foldl applyPart accW ∧
    (parseMove GState.reset partsZ = none ↔
      0 < distSq GState.reset.current_position (moveResult GState.reset partsZ).1 ∧
        (moveResult GState.reset partsZ).2 = 0) ∧
    (consumeLine GState.reset "G1 X1 F0" = none →
      parseMove GState.reset (pySplitWs (stripComment ("G1 X1 F0" : String).toList)) =
        none) :=
  malformed_tokens_skipped accW partsW GState.reset partsZ GState.reset "G1 X1 F0"

set_option maxHeartbeats 4000000 in
theorem scenarioRun_eval :
    consumeLines GState.reset scenarioA =
      some
        { total_extrusion := 5
          time_terms := [(100, 1200), (100, 1200)]
          current_position := ⟨10, 10, 0, 5⟩
          current_feedrate := 1200
          layer_count := 2 } := by
  have h1 : ("G1 X10 Y0 Z0 E5 F1200" : String).toList =
      ['G', '1', ' ', 'X', '1', '0', ' ', 'Y', '0', ' ', 'Z', '0', ' ', 'E', '5', ' ',
        'F', '1', '2', '0', '0'] := by rfl
  have h2 : ("G1 X10 Y10 Z0 E5" : String).toList =
      ['G', '1', ' ', 'X', '1', '0', ' ', 'Y', '1', '0', ' ', 'Z', '0', ' ', 'E', '5'] := by
    rfl
  simp [scenarioA, consumeLines, consumeLine, h1, h2, stripComment, gDispatch,
    parseMove, pySplitWs, pySplitWsAux, moveResult, applyPart, pyFloat, pyFloatCore,
    pyExp, pyStrip, digitsToNat, distSq, GState.reset]
  norm_num

theorem scenarioRun_state :
    scenarioRun =
      { total_extrusion := 5
        time_terms := [(100, 1200), (100, 1200)]
        current_position := ⟨10, 10, 0, 5⟩
        current_feedrate := 1200
        layer_count := 2 } := by
  unfold scenarioRun
  rw [scenarioRun_eval]
  rfl

/-- C1: the claim is false on the code: for the two scenario-A lines the
accumulated extrusion is 5 (the second line repeats `E5`, so its delta is
zero), not 10, and the layer counter is 2 (both lines contain a `Z` token),
not 0. -/
theorem scenarioA_as_stated_false :
    ¬ (scenarioRun.total_extrusion = 10 ∧ scenarioRun.layer_count = 0) := by
  rw [scenarioRun_state]
  norm_num

/-- C1 (amended): the two scenario-A lines are consumed without raising and
the totals are extrusion 5, layer count 2, total time
`10/1200*60 + 10/1200*60` seconds (each move covers distance 10, and the
feed rate 1200 set by the first line persists to the second, which carries
no F token — witnessed by the final `current_feedrate`). -/
theorem scenarioA_corrected :
    consumeLines GState.reset scenarioA = some scenarioRun ∧
    scenarioRun.total_extrusion = 5 ∧
    scenarioRun.layer_count = 2 ∧
    scenarioRun.current_feedrate = 1200 ∧
    totalTime scenarioRun = 10 / 1200 * 60 + 10 / 1200 * 60 := by
  rw [scenarioRun_eval, scenarioRun_state]
  have h10 : Real.sqrt (100 : ℝ) = 10 := by
    rw [show ((100 : ℝ)) = (10 : ℝ) ^ 2 by norm_num]
    exact Real.sqrt_sq (by norm_num)
  refine ⟨rfl, rfl, rfl, rfl, ?_⟩
  simp [totalTime]
  rw [h10]

set_option linter.unnecessarySeqFocus false in
theorem parseMove_time_terms (s : GState) (parts : List (List Char)) (s1 : GState)
    (h : parseMove s parts = some s1) :
    s1.time_terms =
      (if 0 < distSq s.current_position (moveResult s parts).1 then
        s.time_terms ++
          [(distSq s.current_position (moveResult s parts).1, (moveResult s parts).2)]
      else s.time_terms) ∧
    ¬ (0 < distSq s.current_position (moveResult s parts).1 ∧
        (moveResult s parts).2 = 0) := by
  unfold parseMove at h
  dsimp only at h
  split_ifs at h with hc <;>
    (injection h with h; subst h; exact ⟨by split_ifs <;> simp_all, hc⟩)

theorem gDispatch_feed_nonzero (s : GState) (cs : List Char) (s1 : GState)
    (h : gDispatch s cs = some s1) (hs : ∀ t ∈ s.time_terms, t.2 ≠ 0) :
    ∀ t ∈ s1.time_terms, t.2 ≠ 0 := by
  unfold gDispatch at h
  dsimp only at h
  split_ifs at h with h1 h2 h3
  · injection h with h
    subst h
    exact hs
  · cases hpm : parseMove s (pySplitWs cs) with
    | none => rw [hpm] at h; exact absurd h (by simp)
    | some sm =>
      rw [hpm] at h
      dsimp only at h
      injection h with h
      subst h
      obtain ⟨hterms, hguard⟩ := parseMove_time_terms _ _ _ hpm
      intro t ht
      have ht' : t ∈ sm.time_terms := ht
      rw [hterms] at ht'
      split_ifs at ht' with hsq
      · rcases List.mem_append.mp ht' with hmem | hmem
        · exact hs t hmem
        · have hf : (moveResult s (pySplitWs cs)).2 ≠ 0 := fun h0 => hguard ⟨hsq, h0⟩
          simp only [List.mem_singleton] at hmem
          rw [hmem]
          exact hf
      · exact hs t ht'
  · cases hpm : parseMove s (pySplitWs cs) with
    | none => rw [hpm] at h; exact absurd h (by simp)
    | some sm =>
      rw [hpm] at h
      dsimp only at h
      injection h with h
      subst h
      obtain ⟨hterms, hguard⟩ := parseMove_time_terms _ _ _ hpm
      intro t ht
      rw [hterms] at ht
      split_ifs at ht with hsq
      · rcases List.mem_append.mp ht with hmem | hmem
        · exact hs t hmem
        · have hf : (moveResult s (pySplitWs cs)).2 ≠ 0 := fun h0 => hguard ⟨hsq, h0⟩
          simp only [List.mem_singleton] at hmem
          rw [hmem]
          exact hf
      · exact hs t ht
  · injection h with h
    subst h
    exact hs

theorem consumeLine_feed_nonzero (s : GState) (l : String) (s1 : GState)
    (h : consumeLine s l = some s1) (hs : ∀ t ∈ s.time_terms, t.2 ≠ 0) :
    ∀ t ∈ s1.time_terms, t.2 ≠ 0 := by
  unfold consumeLine at h
  dsimp only at h
  split_ifs at h with h1 h2
  · injection h with h
    subst h
    exact hs
  · exact gDispatch_feed_nonzero s _ s1 h hs
  · injection h with h
    subst h
    exact hs

theorem time_terms_feed_nonzero (ls : List String) (s s1 : GState)
    (h : consumeLines s ls = some s1) (hs : ∀ t ∈ s.time_terms, t.2 ≠ 0) :
    ∀ t ∈ s1.time_terms, t.2 ≠ 0 := by
  induction ls generalizing s with
  | nil =>
    simp only [consumeLines] at h
    injection h with h
    subst h
    exact hs
  | cons l ls ih =>
    simp only [consumeLines] at h
    cases hc : consumeLine s l with
    | none => rw [hc] at h; exact absurd h (by simp)
    | some sm =>
      rw [hc] at h
      dsimp only at h
      exact ih sm h (consumeLine_feed_nonzero s l sm hc hs)

/-- C8: `calculate_material_weight` equals the cylinder-volume formula
`π·(d/2)²·L/1000·ρ`, vanishes at zero extrusion length, and for positive
diameter is strictly increasing in the length (at positive density) and in
the density (at positive length). -/
theorem material_weight_spec (L d ρ L1 L2 r1 r2 : ℝ) (hd : 0 < d) (hρ : 0 < ρ)
    (hL : 0 < L) (hL12 : L1 < L2) (hr12 : r1 < r2) :
    calculate_material_weight L d ρ = Real.pi * (d / 2) ^ 2 * L / 1000 * ρ ∧
    calculate_material_weight 0 d ρ = 0 ∧
    calculate_material_weight L1 d ρ < calculate_material_weight L2 d ρ ∧
    calculate_material_weight L d r1 < calculate_material_weight L d r2 := by
  have hw : ∀ x y : ℝ,
      calculate_material_weight x d y = Real.pi * (d / 2) ^ 2 / 1000 * x * y := by
    intro x y
    unfold calculate_material_weight
    ring
  have hc : 0 < Real.pi * (d / 2) ^ 2 / 1000 := by
    have hpi := Real.pi_pos
    positivity
  refine ⟨by rw [hw]; ring, by rw [hw]; ring, ?_, ?_⟩
  · rw [hw, hw]
    have h := mul_lt_mul_of_pos_left hL12 (mul_pos hc hρ)
    nlinarith
  · rw [hw, hw]
    have h := mul_lt_mul_of_pos_left hr12 (mul_pos hc hL)
    nlinarith

theorem material_weight_spec_witness :
    calculate_material_weight 2 2 1 = Real.pi * ((2 : ℝ) / 2) ^ 2 * 2 / 1000 * 1 ∧
    calculate_material_weight 0 2 1 = 0 ∧
    calculate_material_weight 1 2 1 < calculate_material_weight 3 2 1 ∧
    calculate_material_weight 2 2 1 < calculate_material_weight 2 2 2 :=
  material_weight_spec 2 2 1 1 3 1 2 (by norm_num) (by norm_num) (by norm_num)
    (by norm_num) (by norm_num)

end GCode

namespace Printer

theorem pyInt_of_nonneg (q : ℚ) (h : 0 ≤ q) : pyInt q = ⌊q⌋ := by
  simp [pyInt, h]

/-- C4 (amended): `get_status` leaves every controller field unchanged
except `current_layer` and `used_material`; while idle it changes nothing,
and while printing it assigns those two fields the values reported in the
returned snapshot (the snapshot itself varies only with the clock). -/
theorem get_status_frame (s : PState) (now : ℚ) :
    (get_status s now).1 =
      if s.is_printing then
        { s with
          current_layer := (get_status s now).2.current_layer
          used_material := (get_status s now).2.progress / 100 * s.estimated_material }
      else s := by
  by_cases hp : s.is_printing
  · simp [get_status, hp]
  · simp [get_status, hp]

/-- C4: the claim is false on the code: `get_status` is not pure — on a
printing state half-way through a 100-second job it overwrites
`current_layer` and `used_material`, so the post-call state differs from
the pre-call state. -/
theorem get_status_not_pure : (get_status sMut 50).1 ≠ sMut := by
  simp [get_status, sMut, PState.init, pyInt]
  norm_num

/-- C5: `is_complete` returns exactly `get_status().progress ≥ 100` (when
idle it returns `false` without consulting `get_status`, whose idle
progress is 0, so the equivalence still holds), and an immediately repeated
call on the post-call state with the same clock returns the same state and
result. -/
theorem is_complete_spec (s : PState) (now : ℚ) :
    (is_complete s now).2 = decide (100 ≤ (get_status s now).2.progress) ∧
    is_complete (is_complete s now).1 now = is_complete s now := by
  by_cases hp : s.is_printing
  · exact ⟨by simp [is_complete, hp], by simp [is_complete, get_status, hp]⟩
  · exact ⟨by simp [is_complete, get_status, hp], by simp [is_complete, hp]⟩

/-- C10: with `estimated_duration = 0` (as produced by a start with
estimated minutes 0) the progress guard takes the division-free branch:
progress is 0 at every clock value and `is_complete` never reports
completion. -/
theorem zero_duration_safe (s : PState) (now : ℚ)
    (hp : s.is_printing = true) (h0 : s.estimated_duration = 0) :
    (get_status s now).2.progress = 0 ∧ (is_complete s now).2 = false := by
  constructor
  · simp [get_status, hp, h0]
  · simp [is_complete, get_status, hp, h0]

theorem zero_duration_safe_witness :
    (get_status sZ 42).2.progress = 0 ∧ (is_complete sZ 42).2 = false :=
  zero_duration_safe sZ 42 (by rfl)
    (by simp [sZ, start_print, SIMULATION_SPEED_MULTIPLIER, PState.init])

/-- C3: while printing with a positive estimated duration and a
non-negative elapsed time, the status snapshot satisfies the clamped linear
progress law, the floor law for the layer counter, the linear material law
and the clamped remaining-time law; at elapsed 0 it reports progress 0 and
layer 0, and at any elapsed at or past the duration it reports exactly 100
and the full layer count. -/
theorem get_status_progress_spec (s : PState) (now : ℚ)
    (hp : s.is_printing = true) (hd : 0 < s.estimated_duration)
    (he : s.print_start_time ≤ now) :
    (get_status s now).2.progress =
        min ((now - s.print_start_time) / s.estimated_duration * 100) 100 ∧
    (get_status s now).2.progress ≤ 100 ∧
    (get_status s now).2.current_layer =
        ⌊(get_status s now).2.progress / 100 * (s.total_layers : ℚ)⌋ ∧
    (get_status s now).2.used_material =
        some ((get_status s now).2.progress / 100 * s.estimated_material) ∧
    (get_status s now).2.remaining_time =
        max (s.estimated_duration - (now - s.print_start_time)) 0 ∧
    (now - s.print_start_time = 0 →
      (get_status s now).2.progress = 0 ∧ (get_status s now).2.current_layer = 0) ∧
    (s.estimated_duration ≤ now - s.print_start_time →
      (get_status s now).2.progress = 100 ∧
      (get_status s now).2.current_layer = (s.total_layers : ℤ)) := by
  have hprog : (get_status s now).2.progress =
      min ((now - s.print_start_time) / s.estimated_duration * 100) 100 := by
    simp [get_status, hp, hd]
  have h0 : 0 ≤ (now - s.print_start_time) / s.estimated_duration * 100 := by
    have := sub_nonneg.mpr he
    positivity
  have hnn : 0 ≤ (get_status s now).2.progress := by
    rw [hprog]
    exact le_min h0 (by norm_num)
  have hcl : (get_status s now).2.current_layer =
      pyInt ((get_status s now).2.progress / 100 * (s.total_layers : ℚ)) := by
    simp [get_status, hp, hd]
  refine ⟨hprog, ?_, ?_, ?_, ?_, ?_, ?_⟩
  · rw [hprog]
    exact min_le_right _ _
  · rw [hcl, pyInt_of_nonneg]
    positivity
  · simp [get_status, hp, hd]
  · simp [get_status, hp, hd]
  · intro hz
    have hz0 : (get_status s now).2.progress = 0 := by
      rw [hprog, hz]
      norm_num
    refine ⟨hz0, ?_⟩
    rw [hcl, hz0]
    norm_num [pyInt]
  · intro hge
    have h100 : (get_status s now).2.progress = 100 := by
      rw [hprog, min_eq_right]
      have h1 : 1 ≤ (now - s.print_start_time) / s.estimated_duration :=
        (one_le_div hd).mpr (by linarith [sub_nonneg.mpr he])
      nlinarith
    refine ⟨h100, ?_⟩
    rw [hcl, h100]
    norm_num [pyInt]

theorem get_status_progress_spec_witness :
    (get_status s₃ 30).2.progress =
        min ((30 - s₃.print_start_time) / s₃.estimated_duration * 100) 100 ∧
    (get_status s₃ 30).2.progress ≤ 100 ∧
    (get_status s₃ 30).2.current_layer =
        ⌊(get_status s₃ 30).2.progress / 100 * (s₃.total_layers : ℚ)⌋ ∧
    (get_status s₃ 30).2.used_material =
        some ((get_status s₃ 30).2.progress / 100 * s₃.estimated_material) ∧
    (get_status s₃ 30).2.remaining_time =
        max (s₃.estimated_duration - (30 - s₃.print_start_time)) 0 ∧
    ((30 : ℚ) - s₃.print_start_time = 0 →
      (get_status s₃ 30).2.progress = 0 ∧ (get_status s₃ 30).2.current_layer = 0) ∧
    (s₃.estimated_duration ≤ 30 - s₃.print_start_time →
      (get_status s₃ 30).2.progress = 100 ∧
      (get_status s₃ 30).2.current_layer = (s₃.total_layers : ℤ)) :=
  get_status_progress_spec s₃ 30 (by rfl) (by norm_num [s₃, PState.init])
    (by norm_num [s₃, PState.init])

end Printer

namespace Stats

/-- C7: the claim is right and the code is wrong: when a job estimated at
7 g finishes with a declared actual usage of 0 g, `finish_job`'s truthiness
test `if actual_material_grams:` conflates the measured 0 with an absent
value and adds the 7 g estimate to `total_material_grams` instead of the
declared 0 (the caller reserves `None` for "no measurement", passing it
only on the error path). -/
theorem finish_job_zero_actual :
    (finish_job stC7 true (some 0) 100).total_material_grams =
        stC7.total_material_grams + stC7.current_job_estimated_material ∧
    (finish_job stC7 true (some 0) 100).total_material_grams ≠
        stC7.total_material_grams + 0 := by
  constructor
  · simp [finish_job, stC7, truthy]
  · simp [finish_job, stC7, truthy]

end Stats

namespace Orchestrator

/-- C6: when the streaming parse yields no result, `_parse_and_estimate`
still returns an estimate (the job is not aborted): its minutes and grams
are the server-declared values passed through Python `or`, which replaces
an absent or zero server value by the conservative defaults 30 minutes and
10 grams; the resulting minutes figure — the one later sent by the
Starting stage — is never zero, and equals the server's minutes whenever
the server declared a nonzero value. -/
theorem parse_fallback_spec (job : Job) (material : Material) :
    parse_and_estimate job material none =
      some
        { time_minutes := ((pyOr job.estimatedPrintTimeMinutes 30 : ℚ) : ℝ)
          material_grams := ((pyOr job.estimatedMaterialInGrams 10 : ℚ) : ℝ)
          layers := 100 } ∧
    (parse_and_estimate job material none).isSome = true ∧
    pyOr job.estimatedPrintTimeMinutes 30 ≠ 0 ∧
    (job.estimatedPrintTimeMinutes = none → pyOr job.estimatedPrintTimeMinutes 30 = 30) ∧
    (job.estimatedPrintTimeMinutes = some 0 → pyOr job.estimatedPrintTimeMinutes 30 = 30) ∧
    (job.estimatedPrintTimeMinutes.getD 30 ≠ 0 →
      pyOr job.estimatedPrintTimeMinutes 30 = job.estimatedPrintTimeMinutes.getD 30) := by
  refine ⟨rfl, rfl, ?_, ?_, ?_, ?_⟩
  · cases h : job.estimatedPrintTimeMinutes with
    | none => simp [pyOr]
    | some t =>
      by_cases ht : t = 0
      · simp [pyOr, ht]
      · simp [pyOr, ht]
  · intro h
    simp [pyOr, h]
  · intro h
    simp [pyOr, h]
  · intro h
    cases hm : job.estimatedPrintTimeMinutes with
    | none => simp [pyOr]
    | some t =>
      rw [hm] at h
      simp at h
      simp [pyOr, h]

theorem parse_fallback_spec_witness :
    parse_and_estimate jobW matW none =
      some
        { time_minutes := ((pyOr jobW.estimatedPrintTimeMinutes 30 : ℚ) : ℝ)
          material_grams := ((pyOr jobW.estimatedMaterialInGrams 10 : ℚ) : ℝ)
          layers := 100 } ∧
    (parse_and_estimate jobW matW none).isSome = true ∧
    pyOr jobW.estimatedPrintTimeMinutes 30 ≠ 0 ∧
    (jobW.estimatedPrintTimeMinutes = none → pyOr jobW.estimatedPrintTimeMinutes 30 = 30) ∧
    (jobW.estimatedPrintTimeMinutes = some 0 → pyOr jobW.estimatedPrintTimeMinutes 30 = 30) ∧
    (jobW.estimatedPrintTimeMinutes.getD 30 ≠ 0 →
      pyOr jobW.estimatedPrintTimeMinutes 30 = jobW.estimatedPrintTimeMinutes.getD 30) :=
  parse_fallback_spec jobW matW

end Orchestrator
